import Mathlib

/-!
# Verification of the fantasy-basketball scoring core (`src/main.py`)

Shallow embedding of the scoring, aggregation and ranking logic of the
repository.  Python floats are modelled by `ℚ` (every constant appearing in
the program and in the properties is exact), JSON integers by `ℤ`, and the
duck-typed dictionary lookups with defaults (`player.get(k, d)`) by records
of `Option`-typed fields read through `Option.getD`.
-/

/-- A player record as consumed by `calculate_player_points`.  Each field is
optional, mirroring `player.get('pts', 0)` etc. on a Python dictionary:
`none` stands for an absent key.  Display-only fields (name, position, team,
quotation) do not affect scoring and are omitted. -/
structure Player where
  pts : Option ℚ
  is_captain : Option Bool
  captain_multiplier : Option ℚ
  court_position : Option ℤ
deriving DecidableEq, Repr

/-- The `TeamScore` dataclass of `src/main.py` (lines 8–14). -/
structure TeamScore where
  team_id : ℤ
  team_name : String
  total_pts : ℚ
  player_count : ℕ
  players : List Player
deriving DecidableEq, Repr

/-- `calculate_player_points` (`src/main.py` lines 37–56): read the four
fields with their defaults, multiply by the captain multiplier when the
captain flag is set, then halve when the court position is in the bench list
`[7, 8, 9, 10]`. -/
def calculate_player_points (player : Player) : ℚ :=
  let base_pts := player.pts.getD 0
  let is_captain := player.is_captain.getD false
  let captain_multiplier := player.captain_multiplier.getD 1
  let court_position := player.court_position.getD 0
  let final_pts := if is_captain then base_pts * captain_multiplier else base_pts
  if court_position ∈ [(7 : ℤ), 8, 9, 10] then final_pts / 2 else final_pts

/-- The payload under the `'data'` key of a team-preview response: a
dictionary that may or may not carry a `'players'` list. -/
structure TeamData where
  players : Option (List Player)
deriving DecidableEq, Repr

/-- A fetched team-preview response: a dictionary that may or may not carry
a `'data'` key.  `calculate_team_points` receives `Option Preview`, where
`none` is the `None` returned by `get_team_preview` on a request error; an
empty dictionary `{}` is `some ⟨none⟩`. -/
structure Preview where
  data : Option TeamData
deriving DecidableEq, Repr

/-- `calculate_team_points` (`src/main.py` lines 58–78), with the fetched
response passed explicitly (the fetch itself is network I/O).  The guard
`if not data or 'data' not in data or 'players' not in data['data']`
returns the zero-valued `TeamScore`; otherwise the total is
`sum(calculate_player_points(player) for player in players)`, a single
left-to-right pass starting from `0`, modelled by `List.foldl`. -/
def calculate_team_points (team_id : ℤ) (team_name : String)
    (data : Option Preview) : TeamScore :=
  match data with
  | some ⟨some ⟨some players⟩⟩ =>
      { team_id := team_id
        team_name := team_name
        total_pts := players.foldl (fun acc player => acc + calculate_player_points player) 0
        player_count := players.length
        players := players }
  | _ =>
      { team_id := team_id, team_name := team_name,
        total_pts := 0, player_count := 0, players := [] }

/-- The comparison used by `team_scores.sort(key=lambda x: x.total_pts,
reverse=True)`: `a` may precede `b` exactly when `a.total_pts ≥ b.total_pts`. -/
def rankLE (a b : TeamScore) : Bool :=
  decide (b.total_pts ≤ a.total_pts)

/-- The sorting step of `rank_teams` (`src/main.py` lines 97–98) on an
already-collected list of team scores (the fetch/progress loop of lines
84–95 only builds this list, one `calculate_team_points` result per
configured team, in configuration order).  Python's `list.sort` is a stable
sort; with `reverse=True` and key `total_pts` it orders by `total_pts`
descending, ties keeping input order, which is exactly `List.mergeSort`
with `rankLE`. -/
def rank_teams (team_scores : List TeamScore) : List TeamScore :=
  team_scores.mergeSort rankLE

lemma rankLE_trans (a b c : TeamScore) :
    rankLE a b → rankLE b c → rankLE a c := by
  simp only [rankLE, decide_eq_true_eq]
  exact fun h h' => h'.trans h

lemma rankLE_total (a b : TeamScore) : rankLE a b || rankLE b a := by
  simp only [rankLE, Bool.or_eq_true, decide_eq_true_eq]
  exact le_total b.total_pts a.total_pts

/-- The first step of the scoring algorithm: captain adjustment only. -/
def captainStep (player : Player) : ℚ :=
  if player.is_captain.getD false then
    player.pts.getD 0 * player.captain_multiplier.getD 1
  else
    player.pts.getD 0

/-- Membership of the (defaulted) court position in the bench set. -/
def onBench (player : Player) : Prop :=
  player.court_position.getD 0 ∈ [(7 : ℤ), 8, 9, 10]

instance (player : Player) : Decidable (onBench player) := by
  unfold onBench; infer_instance

/-- C1: scoring proceeds in two ordered steps — captain multiplication
first (defaults `0` for points and `1` for the multiplier), then halving
when the court position lies in the bench set `{7, 8, 9, 10}`; and on
`{points := 10, isCaptain := true, captainMultiplier := 3,
courtPosition := 9}` the result is `15`. -/
theorem score_two_ordered_steps :
    (∀ player : Player,
      calculate_player_points player =
        if onBench player then captainStep player / 2 else captainStep player) ∧
    calculate_player_points ⟨some 10, some true, some 3, some 9⟩ = 15 := by
  constructor
  · intro player
    rfl
  · simp [calculate_player_points]
    norm_num

/-- C2: absent fields resolve to the documented defaults — replacing an
absent `pts` by `0`, an absent `is_captain` by `false`, an absent
`captain_multiplier` by `1`, or an absent `court_position` by `0` never
changes the score; and the all-absent record scores `0`. -/
theorem score_defaults :
    (∀ (c : Option Bool) (m : Option ℚ) (q : Option ℤ),
      calculate_player_points ⟨none, c, m, q⟩ =
        calculate_player_points ⟨some 0, c, m, q⟩) ∧
    (∀ (p : Option ℚ) (m : Option ℚ) (q : Option ℤ),
      calculate_player_points ⟨p, none, m, q⟩ =
        calculate_player_points ⟨p, some false, m, q⟩) ∧
    (∀ (p : Option ℚ) (c : Option Bool) (q : Option ℤ),
      calculate_player_points ⟨p, c, none, q⟩ =
        calculate_player_points ⟨p, c, some 1, q⟩) ∧
    (∀ (p : Option ℚ) (c : Option Bool) (m : Option ℚ),
      calculate_player_points ⟨p, c, m, none⟩ =
        calculate_player_points ⟨p, c, m, some 0⟩) ∧
    calculate_player_points ⟨none, none, none, none⟩ = 0 := by
  refine ⟨fun c m q => rfl, fun p m q => rfl, fun p c q => rfl, fun p c m => rfl, rfl⟩

/-- C3: the halving adjustment fires exactly on bench positions — any
player whose (defaulted) court position is outside `{7, 8, 9, 10}` scores
the plain captain-adjusted value, with no position-based change; in
particular the coach position `11` leaves `{points := 10,
courtPosition := 11}` at `10`. -/
theorem score_bench_only (player : Player) (h : ¬ onBench player) :
    calculate_player_points player = captainStep player := by
  unfold calculate_player_points captainStep
  simp only [onBench] at h
  simp [h]

/-- Witness for C3 at the coach position `11`. -/
theorem score_bench_only_witness :
    ¬ onBench ⟨some 10, none, none, some 11⟩ ∧
    calculate_player_points ⟨some 10, none, none, some 11⟩ = 10 := by
  refine ⟨by decide, ?_⟩
  rw [score_bench_only ⟨some 10, none, none, some 11⟩ (by decide)]
  rfl

/-- C4: an absent response (`None`), an empty dictionary (`{}`, i.e. no
`'data'` key), or a `'data'` payload with no `'players'` list all yield the
zero-valued summary: `total_pts = 0`, `player_count = 0`, `players = []`. -/
theorem aggregate_degrades_to_zero (team_id : ℤ) (team_name : String) :
    calculate_team_points team_id team_name none =
      ⟨team_id, team_name, 0, 0, []⟩ ∧
    calculate_team_points team_id team_name (some ⟨none⟩) =
      ⟨team_id, team_name, 0, 0, []⟩ ∧
    calculate_team_points team_id team_name (some ⟨some ⟨none⟩⟩) =
      ⟨team_id, team_name, 0, 0, []⟩ := by
  exact ⟨rfl, rfl, rfl⟩

/-- C5: on a usable response carrying a players list, the summary's
`total_pts` is the left-to-right fold of the per-player scores starting
from `0`, `player_count` is the roster length, and `players` is the roster
itself, unchanged and in order. -/
theorem aggregate_sums_roster (team_id : ℤ) (team_name : String)
    (players : List Player) :
    calculate_team_points team_id team_name (some ⟨some ⟨some players⟩⟩) =
      { team_id := team_id
        team_name := team_name
        total_pts := players.foldl (fun acc player => acc + calculate_player_points player) 0
        player_count := players.length
        players := players } := by
  rfl

/-- C8: when the captain flag resolves to `false`, the multiplier field is
dead — two records identical except for `captain_multiplier` score the
same. -/
theorem multiplier_inert_without_captaincy (p : Option ℚ) (c : Option Bool)
    (m₁ m₂ : Option ℚ) (q : Option ℤ) (h : c.getD false = false) :
    calculate_player_points ⟨p, c, m₁, q⟩ = calculate_player_points ⟨p, c, m₂, q⟩ := by
  unfold calculate_player_points
  simp [h]

/-- Witness for C8: a non-captain with multiplier `5` scores the same as
one with multiplier `100`. -/
theorem multiplier_inert_without_captaincy_witness :
    (some false : Option Bool).getD false = false ∧
    calculate_player_points ⟨some 10, some false, some 5, some 8⟩ =
      calculate_player_points ⟨some 10, some false, some 100, some 8⟩ :=
  ⟨rfl, multiplier_inert_without_captaincy (some 10) (some false) (some 5) (some 100)
    (some 8) rfl⟩

/-- C10: the captain multiplier is applied whatever the court position —
for any captain the score is the multiplied base, halved exactly on bench
positions; at the coach slot `11`, `{points := 10, isCaptain := true,
captainMultiplier := 2, courtPosition := 11}` scores `20`, and at bench
slot `9` it scores `10`. -/
theorem captain_multiplier_any_position :
    (∀ (p m : Option ℚ) (q : Option ℤ),
      calculate_player_points ⟨p, some true, m, q⟩ =
        if q.getD 0 ∈ [(7 : ℤ), 8, 9, 10] then p.getD 0 * m.getD 1 / 2
        else p.getD 0 * m.getD 1) ∧
    calculate_player_points ⟨some 10, some true, some 2, some 11⟩ = 20 ∧
    calculate_player_points ⟨some 10, some true, some 2, some 9⟩ = 10 := by
  refine ⟨fun p m q => rfl, ?_, ?_⟩ <;> norm_num [calculate_player_points]

lemma rank_teams_sorted (xs : List TeamScore) :
    (rank_teams xs).Pairwise (fun a b => b.total_pts ≤ a.total_pts) := by
  have h := List.sorted_mergeSort rankLE_trans rankLE_total xs
  exact h.imp (fun hab => by simpa [rankLE] using hab)

lemma rank_teams_filter_score (xs : List TeamScore) (v : ℚ) :
    (rank_teams xs).filter (fun t => decide (t.total_pts = v)) =
      xs.filter (fun t => decide (t.total_pts = v)) := by
  set p : TeamScore → Bool := fun t => decide (t.total_pts = v) with hp
  have hpair : (xs.filter p).Pairwise (fun a b => rankLE a b = true) := by
    apply List.pairwise_of_forall_mem_list
    intro a ha b hb
    have ha' : a.total_pts = v := by simpa [hp] using (List.mem_filter.mp ha).2
    have hb' : b.total_pts = v := by simpa [hp] using (List.mem_filter.mp hb).2
    simp [rankLE, ha', hb']
  have hsub : List.Sublist (xs.filter p) (rank_teams xs) :=
    List.sublist_mergeSort rankLE_trans rankLE_total hpair (List.filter_sublist xs)
  have hsub' : List.Sublist (xs.filter p) ((rank_teams xs).filter p) := by
    have h2 := hsub.filter p
    rwa [List.filter_eq_self.mpr (fun a ha => (List.mem_filter.mp ha).2)] at h2
  have hlen : ((rank_teams xs).filter p).length = (xs.filter p).length :=
    ((List.mergeSort_perm xs rankLE).filter p).length_eq
  exact (hsub'.eq_of_length hlen.symm).symm

/-- Example teams for the ranking-stability test of the specification. -/
def teamA : TeamScore := ⟨1, "A", 10, 0, []⟩

/-- Second example team, with the highest score. -/
def teamB : TeamScore := ⟨2, "B", 20, 0, []⟩

/-- Third example team, tied with `teamA`. -/
def teamC : TeamScore := ⟨3, "C", 10, 0, []⟩

/-- C6: ranking sorts by `total_pts` descending and is stable — the output
is pairwise non-increasing in `total_pts`, teams of any fixed score appear
in their input order (the filtered subsequence at each score value is
unchanged), and `[A ↦ 10, B ↦ 20, C ↦ 10]` ranks to `[B, A, C]`. -/
theorem rank_descending_stable :
    (∀ xs : List TeamScore,
      (rank_teams xs).Pairwise (fun a b => b.total_pts ≤ a.total_pts)) ∧
    (∀ (xs : List TeamScore) (v : ℚ),
      (rank_teams xs).filter (fun t => decide (t.total_pts = v)) =
        xs.filter (fun t => decide (t.total_pts = v))) ∧
    rank_teams [teamA, teamB, teamC] = [teamB, teamA, teamC] := by
  refine ⟨rank_teams_sorted, rank_teams_filter_score, ?_⟩
  simp [rank_teams, List.mergeSort, teamA, teamB, teamC]
  norm_num [List.merge, rankLE]

/-- C7: ranking is idempotent — re-ranking an already ranked list changes
nothing. -/
theorem rank_idempotent (xs : List TeamScore) :
    rank_teams (rank_teams xs) = rank_teams xs :=
  List.mergeSort_of_sorted (List.sorted_mergeSort rankLE_trans rankLE_total xs)

/-- C9: ranking only reorders — the output is a permutation of the input
list, so every `TeamScore` appears with all its fields exactly as
constructed. -/
theorem rank_perm_of_input (xs : List TeamScore) :
    (rank_teams xs).Perm xs ∧ ∀ t, t ∈ rank_teams xs ↔ t ∈ xs := by
  refine ⟨List.mergeSort_perm xs rankLE, fun t => List.mem_mergeSort⟩
